import Mathlib

set_option maxRecDepth 100000

/-!
Verification development for the OPI_AIRCMS sensor-aggregation system.

Shallow embedding of the program's data model and operations:
* the signed push protocol of `senders/aircms_online.py` (`send_data_to_doiot`),
  including a full executable SHA-1;
* the shared-state store of `update_shared_dict.py`;
* the sensor decoders/drivers of `sensors/` (SDS011, BMP280 variants,
  ENS160, CPU temperature);
* the community delivery pipeline of `senders/sensor_community.py`.

Machine integers are modelled as `Nat`/`Int` with explicit `% 2^w` where the
source relies on wrap-around; Python float arithmetic is modelled over `ℚ`
(the source formulas involve only field operations and comparisons, and every
claim is stated relative to the values the embedded arithmetic produces);
fallible code returns `Option`/`Except`.
-/

/-! ### Bytes, UTF-8 and hex rendering

`hashlib.sha1(s.encode('utf-8'))` hashes the UTF-8 bytes of `s`.  We model a
byte as a `Nat` below 256 and implement the standard UTF-8 encoding of a
Unicode scalar value. -/

/-- Truncate to a 32-bit word, as Python's masking with `0xFFFFFFFF` does. -/
def w32 (x : Nat) : Nat := x % 4294967296

/-- Standard UTF-8 encoding of one Unicode scalar value (1–4 bytes). -/
def utf8EncodeScalar (c : Nat) : List Nat :=
  if c < 0x80 then [c]
  else if c < 0x800 then
    [0xC0 ||| (c >>> 6), 0x80 ||| (c &&& 0x3F)]
  else if c < 0x10000 then
    [0xE0 ||| (c >>> 12), 0x80 ||| ((c >>> 6) &&& 0x3F), 0x80 ||| (c &&& 0x3F)]
  else
    [0xF0 ||| (c >>> 18), 0x80 ||| ((c >>> 12) &&& 0x3F),
     0x80 ||| ((c >>> 6) &&& 0x3F), 0x80 ||| (c &&& 0x3F)]

/-- UTF-8 bytes of a string, modelling Python's `s.encode('utf-8')`. -/
def utf8Bytes (s : String) : List Nat :=
  s.data.flatMap (fun c => utf8EncodeScalar c.toNat)

/-- Lowercase hex digit for a nibble. -/
def hexDigit (n : Nat) : Char :=
  if n < 10 then Char.ofNat (48 + n) else Char.ofNat (87 + n)

/-- Lowercase 8-hex-character rendering of a 32-bit word (most significant
nibble first), as in Python's `hexdigest()`. -/
def hex32 (x : Nat) : List Char :=
  [hexDigit ((x >>> 28) &&& 15), hexDigit ((x >>> 24) &&& 15),
   hexDigit ((x >>> 20) &&& 15), hexDigit ((x >>> 16) &&& 15),
   hexDigit ((x >>> 12) &&& 15), hexDigit ((x >>> 8) &&& 15),
   hexDigit ((x >>> 4) &&& 15), hexDigit (x &&& 15)]

/-! ### SHA-1 (FIPS 180-4), executable

`hashlib.sha1` is the standard SHA-1.  The implementation below processes the
padded message in 64-byte blocks with the usual 80-round compression. -/

/-- 32-bit left rotation. -/
def rotl32 (x n : Nat) : Nat := w32 ((x <<< n) ||| (x >>> (32 - n)))

/-- Big-endian 8-byte rendering of a (length) value. -/
def be64 (n : Nat) : List Nat :=
  [(n >>> 56) &&& 255, (n >>> 48) &&& 255, (n >>> 40) &&& 255,
   (n >>> 32) &&& 255, (n >>> 24) &&& 255, (n >>> 16) &&& 255,
   (n >>> 8) &&& 255, n &&& 255]

/-- SHA-1 padding: append `0x80`, zero bytes up to 56 mod 64, then the 64-bit
big-endian bit length of the original message. -/
def sha1Pad (msg : List Nat) : List Nat :=
  let len := msg.length
  let zeros := (119 - len % 64) % 64
  msg ++ 0x80 :: List.replicate zeros 0 ++ be64 (8 * len)

/-- Split a byte list into chunks of `n` (the last chunk possibly shorter);
structural fuel recursion on the list length. -/
def chunksOf (n : Nat) : Nat → List Nat → List (List Nat)
  | 0, _ => []
  | _, [] => []
  | fuel + 1, l => l.take n :: chunksOf n fuel (l.drop n)

/-- One 32-bit word from four big-endian bytes. -/
def wordOfBytes : List Nat → Nat
  | [b0, b1, b2, b3] => (b0 <<< 24) ||| (b1 <<< 16) ||| (b2 <<< 8) ||| b3
  | _ => 0

/-- The 16 words of one 64-byte block (big-endian). -/
def blockWords (block : List Nat) : List Nat :=
  (chunksOf 4 block.length block).map wordOfBytes

/-- Extend a 16-word message schedule to 80 words:
`w[i] = rotl1 (w[i-3] xor w[i-8] xor w[i-14] xor w[i-16])`. -/
def sha1Extend : Nat → List Nat → List Nat
  | 0, ws => ws
  | fuel + 1, ws =>
    let n := ws.length
    let w := rotl32 ((ws.getD (n - 3) 0) ^^^ (ws.getD (n - 8) 0) ^^^
                     (ws.getD (n - 14) 0) ^^^ (ws.getD (n - 16) 0)) 1
    sha1Extend fuel (ws ++ [w])

/-- Five-word SHA-1 state. -/
structure Sha1State where
  a : Nat
  b : Nat
  c : Nat
  d : Nat
  e : Nat
deriving DecidableEq, Repr

/-- One SHA-1 round: round index `i`, schedule word `w`. -/
def sha1Round (st : Sha1State) (iw : Nat × Nat) : Sha1State :=
  let i := iw.1
  let w := iw.2
  let f :=
    if i < 20 then (st.b &&& st.c) ||| ((st.b ^^^ 0xFFFFFFFF) &&& st.d)
    else if i < 40 then st.b ^^^ st.c ^^^ st.d
    else if i < 60 then (st.b &&& st.c) ||| (st.b &&& st.d) ||| (st.c &&& st.d)
    else st.b ^^^ st.c ^^^ st.d
  let k :=
    if i < 20 then 0x5A827999
    else if i < 40 then 0x6ED9EBA1
    else if i < 60 then 0x8F1BBCDC
    else 0xCA62C1D6
  { a := w32 (rotl32 st.a 5 + f + st.e + k + w),
    b := st.a, c := rotl32 st.b 30, d := st.c, e := st.d }

/-- Compress one 64-byte block into the running state. -/
def sha1Block (st : Sha1State) (block : List Nat) : Sha1State :=
  let ws := sha1Extend 64 (blockWords block)
  let fin := ws.enum.foldl sha1Round st
  { a := w32 (st.a + fin.a), b := w32 (st.b + fin.b), c := w32 (st.c + fin.c),
    d := w32 (st.d + fin.d), e := w32 (st.e + fin.e) }

/-- SHA-1 initial state. -/
def sha1Init : Sha1State :=
  { a := 0x67452301, b := 0xEFCDAB89, c := 0x98BADCFE,
    d := 0x10325476, e := 0xC3D2E1F0 }

/-- SHA-1 digest of a byte list as five 32-bit words. -/
def sha1Words (msg : List Nat) : Sha1State :=
  let padded := sha1Pad msg
  (chunksOf 64 padded.length padded).foldl sha1Block sha1Init

/-- Lowercase hex digest of the SHA-1 of a byte list (40 characters),
modelling `hashlib.sha1(bytes).hexdigest()`. -/
def sha1HexBytes (msg : List Nat) : String :=
  let st := sha1Words msg
  String.mk (hex32 st.a ++ hex32 st.b ++ hex32 st.c ++ hex32 st.d ++ hex32 st.e)

/-- `hashlib.sha1(s.encode('utf-8')).hexdigest()` for a string `s`. -/
def sha1Hex (s : String) : String := sha1HexBytes (utf8Bytes s)

/-- Sanity vector: SHA-1 of `"abc"` (FIPS 180-4 test vector). -/
theorem sha1Hex_abc : sha1Hex "abc" = "a9993e364706816aba3e25717850c26c9cd0d89d" := by
  decide

/-- Sanity vector: SHA-1 of the empty string. -/
theorem sha1Hex_empty : sha1Hex "" = "da39a3ee5e6b4b0d3255bfef95601890afd80709" := by
  decide

/-! ### C1 — the signed push protocol of `senders/aircms_online.py`

`send_data_to_doiot` (lines 42–74) builds
`our_data = "L=" + login + "&t=" + timestamp + "&airrohr=" + data_json_str`
and then computes, with `token` the MAC address:
```
sha1_of_message = sha1(our_data + token)          # hexdigest
token_sha1_hex  = sha1(token)                     # hexdigest
signature      = sha1(token_sha1_hex + sha1_of_message)   # hexdigest
```
-/

/-- The `our_data` form body built in `send_data_to_doiot` step 1. -/
def build_our_data (login timestamp dataJsonStr : String) : String :=
  "L=" ++ login ++ "&t=" ++ timestamp ++ "&airrohr=" ++ dataJsonStr

/-- The signature computation of `send_data_to_doiot`, steps 2.1–2.4, exactly
as sequenced in the source. -/
def send_data_to_doiot_signature (our_data token : String) : String :=
  let hmac_message := our_data ++ token
  let sha1_of_message := sha1Hex hmac_message
  let token_sha1_hex := sha1Hex token
  let final_input := token_sha1_hex ++ sha1_of_message
  sha1Hex final_input

/-- The spec's formula, written independently from the spec's words:
`sig = H( H(token) || H(our_data + token) )` with `H` the lowercase SHA-1 hex
digest. -/
def specChainSignature (token our_data : String) : String :=
  sha1Hex (sha1Hex token ++ sha1Hex (our_data ++ token))

/-- C1: for every token string and payload string, the signature computed by
`send_data_to_doiot` is deterministic (it is a pure function of its two
string inputs) and equals the three-round chain
`sha1(sha1(token) + sha1(our_data + token))` over lowercase hex digests; in
particular for `token = "AA"`, `our_data = "X"` it equals the independently
computed value `f4d6d41d179fb2afdb83d542690504a310f9c088`. -/
theorem send_data_to_doiot_signature_spec :
    (∀ token our_data : String,
      send_data_to_doiot_signature our_data token =
        specChainSignature token our_data) ∧
    send_data_to_doiot_signature "X" "AA" =
      "f4d6d41d179fb2afdb83d542690504a310f9c088" := by
  refine ⟨fun token our_data => rfl, by decide⟩

/-! ### C2 — the shared-state store of `update_shared_dict.py`

`update_sensor_data(shared_dict, lock, data)` does, under the lock:
```
current_dict = dict(shared_dict['Sensor data'])
current_dict.update(data)
shared_dict['Sensor data'] = current_dict
```
A Python dict is modelled as a function `String → Option α`; `dict.update`
applies the bindings of its argument left to right, later keys winning.  The
lock linearizes the writes, so a sequence of calls is modelled as sequential
function application.  Every caller in the source passes `data` of the form
`{family: fields}` with a single family key; `mergeSensorData` below is
`update_sensor_data` applied to such a singleton dict. -/

/-- A Python dict with string keys. -/
def PyDict (α : Type) : Type := String → Option α

/-- Insert/overwrite one key. -/
def dictInsert {α : Type} (d : PyDict α) (k : String) (v : α) : PyDict α :=
  fun k' => if k' = k then some v else d k'

/-- Python's `dict.update`: apply the argument's bindings left to right. -/
def dictUpdate {α : Type} (d : PyDict α) : List (String × α) → PyDict α
  | [] => d
  | (k, v) :: rest => dictUpdate (dictInsert d k v) rest

/-- The shared state: the `"Sensor data"` and `"Service data"` namespaces.
`α` is the type of one family's sub-mapping, `β` the type of one service
entry. -/
structure SharedState (α β : Type) where
  sensorData : PyDict α
  serviceData : PyDict β

/-- The state `{'Sensor data': {}, 'Service data': {}}` created at startup
(`main.py`). -/
def emptyShared (α β : Type) : SharedState α β :=
  { sensorData := fun _ => none, serviceData := fun _ => none }

/-- `update_sensor_data`: copy the `"Sensor data"` namespace, `dict.update` it
with `data`, store it back. -/
def update_sensor_data {α β : Type} (st : SharedState α β)
    (data : List (String × α)) : SharedState α β :=
  { st with sensorData := dictUpdate st.sensorData data }

/-- `mergeSensorData family fields` — `update_sensor_data` with the singleton
dict `{family: fields}`, the shape every caller in the source uses. -/
def mergeSensorData {α β : Type} (st : SharedState α β)
    (family : String) (fields : α) : SharedState α β :=
  update_sensor_data st [(family, fields)]

/-- After a list of whole-family writes, each family holds either its initial
value or the complete fields argument of one of the writes. -/
theorem mergeSensorData_foldl {α β : Type} (writes : List (String × α))
    (st : SharedState α β) (G : String) :
    (writes.foldl (fun s p => mergeSensorData s p.1 p.2) st).sensorData G
        = st.sensorData G ∨
      ∃ f, (G, f) ∈ writes ∧
        (writes.foldl (fun s p => mergeSensorData s p.1 p.2) st).sensorData G
          = some f := by
  induction writes generalizing st with
  | nil => exact Or.inl rfl
  | cons p rest ih =>
    rcases ih (mergeSensorData st p.1 p.2) with h | ⟨f, hf, hres⟩
    · by_cases hG : G = p.1
      · refine Or.inr ⟨p.2, ?_, ?_⟩
        · subst hG
          exact List.mem_cons_self _ _
        · rw [List.foldl_cons, h]
          simp [mergeSensorData, update_sensor_data, dictUpdate, dictInsert, hG]
      · refine Or.inl ?_
        rw [List.foldl_cons, h]
        simp [mergeSensorData, update_sensor_data, dictUpdate, dictInsert, hG]
    · exact Or.inr ⟨f, List.mem_cons_of_mem _ hf, by rw [List.foldl_cons]; exact hres⟩

/-- C2: `update_sensor_data`/`mergeSensorData` sets the `"Sensor data"` entry
for family `F` to exactly the given fields mapping as one whole replacement,
leaves every other family `G ≠ F` unchanged, and after any sequence of such
writes each family's value is either its initial value or the complete fields
argument of some single write — never a mixture. -/
theorem mergeSensorData_spec {α β : Type} (st : SharedState α β)
    (F : String) (fields : α) :
    (mergeSensorData st F fields).sensorData F = some fields ∧
    (∀ G : String, G ≠ F →
      (mergeSensorData st F fields).sensorData G = st.sensorData G) ∧
    (∀ (writes : List (String × α)) (st₀ : SharedState α β) (G : String),
      (writes.foldl (fun s p => mergeSensorData s p.1 p.2) st₀).sensorData G
          = st₀.sensorData G ∨
        ∃ f, (G, f) ∈ writes ∧
          (writes.foldl (fun s p => mergeSensorData s p.1 p.2) st₀).sensorData G
            = some f) := by
  refine ⟨?_, ?_, fun writes st₀ G => mergeSensorData_foldl writes st₀ G⟩
  · simp [mergeSensorData, update_sensor_data, dictUpdate, dictInsert]
  · intro G hG
    simp [mergeSensorData, update_sensor_data, dictUpdate, dictInsert, hG]

/-- C2 witness: on the empty store over `α = β = Nat`, writing family
`"SDS011"` yields exactly the written value there and leaves `"BMP280"`
untouched. -/
theorem mergeSensorData_spec_witness :
    (mergeSensorData (emptyShared Nat Nat) "SDS011" 7).sensorData "SDS011"
        = some 7 ∧
      (mergeSensorData (emptyShared Nat Nat) "SDS011" 7).sensorData "BMP280"
        = none := by
  refine ⟨(mergeSensorData_spec (emptyShared Nat Nat) "SDS011" 7).1, ?_⟩
  have h := (mergeSensorData_spec (emptyShared Nat Nat) "SDS011" 7).2.1
    "BMP280" (by decide)
  rw [h]
  rfl

/-! ### Python rounding over the rational model

CPython's `round(x, n)` and its `format` spec `.Nf` round half to even. -/

/-- Round half to even of a rational to an integer (CPython's rounding);
`Rat.floor` keeps the definition kernel-executable. -/
def roundHalfEven (q : ℚ) : ℤ :=
  let n := q.floor
  let r := q - n
  if r < 1 / 2 then n
  else if 1 / 2 < r then n + 1
  else if n % 2 = 0 then n else n + 1

/-- Python's `round(x, 2)` over the rational model. -/
def round2 (q : ℚ) : ℚ := (roundHalfEven (q * 100) : ℚ) / 100

/-- `Rat.floor` agrees with the floor of the `FloorRing` structure. -/
theorem ratFloor_eq_intFloor (q : ℚ) : q.floor = ⌊q⌋ :=
  (Rat.floor_def' q).trans Rat.floor_def.symm

/-- `roundHalfEven` fixes integers. -/
theorem roundHalfEven_intCast (m : ℤ) : roundHalfEven (m : ℚ) = m := by
  simp [roundHalfEven, ratFloor_eq_intFloor]

/-- `round(x, 2)` fixes multiples of one tenth. -/
theorem round2_div_ten (n : ℤ) : round2 ((n : ℚ) / 10) = (n : ℚ) / 10 := by
  have h : ((n : ℚ) / 10) * 100 = ((10 * n : ℤ) : ℚ) := by push_cast; ring
  rw [round2, h, roundHalfEven_intCast]
  push_cast
  ring

/-! ### C4 / C10 — the particulate decoder of `sensors/sds011.py`

`SDS011.get_data` reads 10 bytes from the serial port; if
`len(data) == 10 and data[0] == 0xAA and data[1] == 0xC0 and data[9] == 0xAB`
it returns the family-keyed dict
`{'SDS011': {'pm25': {...}, 'pm10': {...}}}` with
`pm25 = struct.unpack('<H', data[2:4])[0] / 10.0` (little-endian 16-bit) and
`pm10` from bytes 4–5, each `round(_, 2)`; any other frame (and any
exception) falls through to `return None`.  The inner per-field dicts are
modelled by `Reading`, the two-field family dict by `SDS011Data`. -/

/-- One field's dict: `{'value', 'unit', 'description', 'timestamp'}`. -/
structure Reading where
  value : ℚ
  unit : String
  descr : String
  timestamp : ℚ
deriving DecidableEq, Repr

/-- The `'SDS011'` family sub-mapping: `{'pm25': …, 'pm10': …}`. -/
structure SDS011Data where
  pm25 : Reading
  pm10 : Reading
deriving DecidableEq, Repr

/-- `SDS011.get_data`, as a function of the bytes read from the serial stream
and the current time; `none` models `return None` (never an exception). -/
def SDS011_get_data (data : List Nat) (now : ℚ) : Option SDS011Data :=
  if data.length = 10 ∧ data.getD 0 0 = 0xAA ∧ data.getD 1 0 = 0xC0 ∧
      data.getD 9 0 = 0xAB then
    let pm25 : ℚ := (data.getD 2 0 + 256 * data.getD 3 0 : ℕ) / 10
    let pm10 : ℚ := (data.getD 4 0 + 256 * data.getD 5 0 : ℕ) / 10
    some { pm25 := { value := round2 pm25, unit := "мкг/м³",
                     descr := "PM 2.5", timestamp := now },
           pm10 := { value := round2 pm10, unit := "мкг/м³",
                     descr := "PM 10", timestamp := now } }
  else none

/-- C4: for every byte sequence from the serial stream, a length or marker
mismatch yields `none` (and the decoder is a total function, so it never
raises); when all markers match it returns the two little-endian 16-bit
fields at bytes 2–3 and 4–5, each divided by 10.0. -/
theorem SDS011_get_data_frame_spec (data : List Nat) (now : ℚ) :
    (¬(data.length = 10 ∧ data.getD 0 0 = 0xAA ∧ data.getD 1 0 = 0xC0 ∧
        data.getD 9 0 = 0xAB) →
      SDS011_get_data data now = none) ∧
    ((data.length = 10 ∧ data.getD 0 0 = 0xAA ∧ data.getD 1 0 = 0xC0 ∧
        data.getD 9 0 = 0xAB) →
      ∃ r : SDS011Data, SDS011_get_data data now = some r ∧
        r.pm25.value = (data.getD 2 0 + 256 * data.getD 3 0 : ℕ) / 10 ∧
        r.pm10.value = (data.getD 4 0 + 256 * data.getD 5 0 : ℕ) / 10) := by
  constructor
  · intro h
    simp only [SDS011_get_data, if_neg h]
  · intro h
    simp only [SDS011_get_data, if_pos h]
    refine ⟨_, rfl, ?_, ?_⟩
    · simpa using round2_div_ten ((data.getD 2 0 + 256 * data.getD 3 0 : ℕ) : ℤ)
    · simpa using round2_div_ten ((data.getD 4 0 + 256 * data.getD 5 0 : ℕ) : ℤ)

/-- C4 witness: the valid frame `AA C0 7B 00 C9 00 00 00 00 AB` decodes to
`pm25 = 12.3`, `pm10 = 20.1`. -/
theorem SDS011_get_data_frame_spec_witness :
    ∃ r : SDS011Data,
      SDS011_get_data [0xAA, 0xC0, 123, 0, 201, 0, 0, 0, 0, 0xAB] 0 = some r ∧
        r.pm25.value = 123 / 10 ∧ r.pm10.value = 201 / 10 := by
  have h :=
    (SDS011_get_data_frame_spec [0xAA, 0xC0, 123, 0, 201, 0, 0, 0, 0, 0xAB] 0).2
      (by decide)
  simpa using h

/-- A 16-bit field divided by 10 stays in `[0, 6553.5]`, and rounding to two
decimals fixes it. -/
theorem round2_div10_bounds (k : ℕ) (hk : k ≤ 65535) :
    0 ≤ round2 ((k : ℚ) / 10) ∧ round2 ((k : ℚ) / 10) ≤ 6553.5 := by
  have e : round2 ((k : ℚ) / 10) = (k : ℚ) / 10 := by
    simpa using round2_div_ten (k : ℤ)
  rw [e]
  constructor
  · positivity
  · have hq : (k : ℚ) ≤ 65535 := by exact_mod_cast hk
    rw [show (6553.5 : ℚ) = 65535 / 10 by norm_num]
    linarith

/-- C10: for every accepted 10-byte frame (bytes below 256, as Python `bytes`
guarantees), the decoded `pm25` and `pm10` values lie in `[0, 6553.5]`, equal
the raw little-endian field divided by 10 (rounding to 2 decimals fixes
them), and the returned mapping carries both entries complete with value,
unit, description and timestamp fields. -/
theorem SDS011_get_data_range (data : List Nat) (now : ℚ)
    (hb : ∀ b ∈ data, b < 256) :
    ∀ r : SDS011Data, SDS011_get_data data now = some r →
      (0 ≤ r.pm25.value ∧ r.pm25.value ≤ 6553.5) ∧
      (0 ≤ r.pm10.value ∧ r.pm10.value ≤ 6553.5) ∧
      r.pm25.value = round2 ((data.getD 2 0 + 256 * data.getD 3 0 : ℕ) / 10) ∧
      r.pm10.value = round2 ((data.getD 4 0 + 256 * data.getD 5 0 : ℕ) / 10) ∧
      r.pm25.unit = "мкг/м³" ∧ r.pm25.descr = "PM 2.5" ∧
      r.pm25.timestamp = now ∧
      r.pm10.unit = "мкг/м³" ∧ r.pm10.descr = "PM 10" ∧
      r.pm10.timestamp = now := by
  intro r hr
  by_cases hc : data.length = 10 ∧ data.getD 0 0 = 0xAA ∧
      data.getD 1 0 = 0xC0 ∧ data.getD 9 0 = 0xAB
  · rw [SDS011_get_data, if_pos hc, Option.some_inj] at hr
    subst hr
    have hlen : data.length = 10 := hc.1
    have hbyte : ∀ i : ℕ, i < 10 → data.getD i 0 < 256 := by
      intro i hi
      rw [List.getD_eq_getElem data 0 (by omega)]
      exact hb _ (List.getElem_mem _)
    have h25 : (data.getD 2 0 + 256 * data.getD 3 0 : ℕ) ≤ 65535 := by
      have := hbyte 2 (by omega)
      have := hbyte 3 (by omega)
      omega
    have h10 : (data.getD 4 0 + 256 * data.getD 5 0 : ℕ) ≤ 65535 := by
      have := hbyte 4 (by omega)
      have := hbyte 5 (by omega)
      omega
    have b25 := round2_div10_bounds _ h25
    have b10 := round2_div10_bounds _ h10
    exact ⟨⟨b25.1, b25.2⟩, ⟨b10.1, b10.2⟩, rfl, rfl, rfl, rfl, rfl, rfl, rfl,
      rfl⟩
  · rw [SDS011_get_data, if_neg hc] at hr
    exact absurd hr (by simp)

/-- The decoding of the frame `AA C0 FF FF 00 00 00 00 00 AB` at time 0
(`pm25` field `0xFFFF = 65535`, `pm10` field `0`). -/
def sdsFrameExDecoded : SDS011Data :=
  { pm25 := { value := round2 ((65535 : ℕ) / 10 : ℚ), unit := "мкг/м³",
              descr := "PM 2.5", timestamp := 0 },
    pm10 := { value := round2 ((0 : ℕ) / 10 : ℚ), unit := "мкг/м³",
              descr := "PM 10", timestamp := 0 } }

/-- C10 witness: the frame `AA C0 FF FF 00 00 00 00 00 AB` decodes with
`pm25 = 6553.5` (the upper bound) and `pm10 = 0`, both in range and complete. -/
theorem SDS011_get_data_range_witness :
    (∀ b ∈ [0xAA, 0xC0, 255, 255, 0, 0, 0, 0, 0, 0xAB], b < 256) ∧
    ((0 : ℚ) ≤ sdsFrameExDecoded.pm25.value ∧
      sdsFrameExDecoded.pm25.value ≤ 6553.5) ∧
    (0 ≤ sdsFrameExDecoded.pm10.value ∧ sdsFrameExDecoded.pm10.value ≤ 6553.5) := by
  have h := SDS011_get_data_range [0xAA, 0xC0, 255, 255, 0, 0, 0, 0, 0, 0xAB] 0
    (by decide) sdsFrameExDecoded (by rfl)
  exact ⟨by decide, h.1, h.2.1⟩

/-! ### C5 — the pressure/temperature read of `sensors/aht20_bmp280.py`

`AHT20_BMP280.read_bmp280` (lines 117–139) unpacks the 6-byte block into the
two 20-bit ADC fields, returns `(None, None)` when either is exactly zero,
runs the Bosch double-precision compensation (`_compensate_temperature`,
`_compensate_pressure`), returns `(None, None)` when the compensated
temperature is outside `[-40, 85]` or the pressure outside `[300, 1100]`, and
otherwise returns both values rounded to 2 decimals.
`BMP280Sensor.get_data` of `sensors/bmp280_sensor.py` (lines 129–161) performs
the identical computation.  Float arithmetic is modelled over `ℚ`; the
claim's conditions are stated on the values the embedded arithmetic
produces. -/

/-- The 12 calibration words (`dig_T1..dig_P9`), signed/unsigned 16-bit reads
already interpreted as Python ints. -/
structure BMP280Calib where
  digT1 : ℤ
  digT2 : ℤ
  digT3 : ℤ
  digP1 : ℤ
  digP2 : ℤ
  digP3 : ℤ
  digP4 : ℤ
  digP5 : ℤ
  digP6 : ℤ
  digP7 : ℤ
  digP8 : ℤ
  digP9 : ℤ
deriving DecidableEq, Repr

/-- The 20-bit raw pressure field: `(data[0] << 12) | (data[1] << 4) | (data[2] >> 4)`. -/
def bmp280AdcP (data : List Nat) : ℕ :=
  ((data.getD 0 0) <<< 12) ||| ((data.getD 1 0) <<< 4) ||| ((data.getD 2 0) >>> 4)

/-- The 20-bit raw temperature field: `(data[3] << 12) | (data[4] << 4) | (data[5] >> 4)`. -/
def bmp280AdcT (data : List Nat) : ℕ :=
  ((data.getD 3 0) <<< 12) ||| ((data.getD 4 0) <<< 4) ||| ((data.getD 5 0) >>> 4)

/-- `_compensate_temperature`: returns `(temp_C, t_fine)`. -/
def compensate_temperature (c : BMP280Calib) (adc_T : ℚ) : ℚ × ℚ :=
  let var1 := ((adc_T / 16384) - ((c.digT1 : ℚ) / 1024)) * (c.digT2 : ℚ)
  let var2 := (((adc_T / 131072) - ((c.digT1 : ℚ) / 8192)) ^ 2) * (c.digT3 : ℚ)
  let t_fine := var1 + var2
  (t_fine / 5120, t_fine)

/-- `_compensate_pressure`: returns the pressure in hPa (`p / 100.0`), or
`0.0` when the intermediate `var1` vanishes. -/
def compensate_pressure (c : BMP280Calib) (adc_P t_fine : ℚ) : ℚ :=
  let var1 := (t_fine / 2) - 64000
  let var2 := var1 * var1 * (c.digP6 : ℚ) / 32768
  let var2 := var2 + var1 * (c.digP5 : ℚ) * 2
  let var2 := (var2 / 4) + ((c.digP4 : ℚ) * 65536)
  let var1 := ((c.digP3 : ℚ) * var1 * var1 / 524288 +
    (c.digP2 : ℚ) * var1) / 524288
  let var1 := (1 + var1 / 32768) * (c.digP1 : ℚ)
  if var1 = 0 then 0
  else
    let p := 1048576 - adc_P
    let p := (p - (var2 / 4096)) * 6250 / var1
    let var1 := (c.digP9 : ℚ) * p * p / 2147483648
    let var2 := p * (c.digP8 : ℚ) / 32768
    let p := p + (var1 + var2 + (c.digP7 : ℚ)) / 16
    p / 100

/-- `read_bmp280` (with the calibration present), as a function of the 6-byte
raw block; `(none, none)` models `return None, None`. -/
def read_bmp280 (c : BMP280Calib) (data : List Nat) : Option ℚ × Option ℚ :=
  let adc_P := bmp280AdcP data
  let adc_T := bmp280AdcT data
  if adc_T = 0 ∨ adc_P = 0 then (none, none)
  else
    let tc := compensate_temperature c (adc_T : ℚ)
    let temp_C := tc.1
    let press_hPa := compensate_pressure c (adc_P : ℚ) tc.2
    if ¬(-40 ≤ temp_C ∧ temp_C ≤ 85) ∨ ¬(300 ≤ press_hPa ∧ press_hPa ≤ 1100)
    then (none, none)
    else (some (round2 temp_C), some (round2 press_hPa))

/-- C5: for every 6-byte raw block and calibration word set, the read returns
`(None, None)` whenever a raw ADC field is zero or the compensated
temperature/pressure falls outside `[-40, 85]` / `[300, 1100]`, and otherwise
returns the compensated values rounded to 2 decimals. -/
theorem read_bmp280_spec (c : BMP280Calib) (data : List Nat) :
    (bmp280AdcT data = 0 ∨ bmp280AdcP data = 0 →
      read_bmp280 c data = (none, none)) ∧
    (bmp280AdcT data ≠ 0 → bmp280AdcP data ≠ 0 →
      (¬(-40 ≤ (compensate_temperature c (bmp280AdcT data : ℚ)).1 ∧
          (compensate_temperature c (bmp280AdcT data : ℚ)).1 ≤ 85) ∨
       ¬(300 ≤ compensate_pressure c (bmp280AdcP data : ℚ)
            (compensate_temperature c (bmp280AdcT data : ℚ)).2 ∧
          compensate_pressure c (bmp280AdcP data : ℚ)
            (compensate_temperature c (bmp280AdcT data : ℚ)).2 ≤ 1100) →
        read_bmp280 c data = (none, none)) ∧
      ((-40 ≤ (compensate_temperature c (bmp280AdcT data : ℚ)).1 ∧
          (compensate_temperature c (bmp280AdcT data : ℚ)).1 ≤ 85) →
       (300 ≤ compensate_pressure c (bmp280AdcP data : ℚ)
            (compensate_temperature c (bmp280AdcT data : ℚ)).2 ∧
          compensate_pressure c (bmp280AdcP data : ℚ)
            (compensate_temperature c (bmp280AdcT data : ℚ)).2 ≤ 1100) →
        read_bmp280 c data =
          (some (round2 (compensate_temperature c (bmp280AdcT data : ℚ)).1),
           some (round2 (compensate_pressure c (bmp280AdcP data : ℚ)
             (compensate_temperature c (bmp280AdcT data : ℚ)).2))))) := by
  refine ⟨fun h => ?_, fun hT hP => ⟨fun hout => ?_, fun hTr hPr => ?_⟩⟩
  · rw [read_bmp280, if_pos h]
  · rw [read_bmp280, if_neg (by push_neg; exact ⟨hT, hP⟩), if_pos hout]
  · rw [read_bmp280, if_neg (by push_neg; exact ⟨hT, hP⟩),
      if_neg (by push_neg; exact ⟨hTr, hPr⟩)]

/-- A concrete calibration set for the C5 witness: `dig_T2 = 128000`,
`dig_P1 = 1`, all other words zero. -/
def bmpCalibEx : BMP280Calib := ⟨0, 128000, 0, 1, 0, 0, 0, 0, 0, 0, 0, 0⟩

/-- C5 witness: on the block `FF FF 00 04 00 00` (`adc_P = 1048560`,
`adc_T = 16384`) with `bmpCalibEx`, both ADC fields are nonzero, the
compensated values are `25 °C` and `1000 hPa` (in range), and the read
returns them. -/
theorem read_bmp280_spec_witness :
    read_bmp280 bmpCalibEx [255, 255, 0, 4, 0, 0] = (some 25, some 1000) := by
  have hTn : bmp280AdcT [255, 255, 0, 4, 0, 0] = 16384 := by decide
  have hPn : bmp280AdcP [255, 255, 0, 4, 0, 0] = 1048560 := by decide
  have hct : compensate_temperature bmpCalibEx
      ((bmp280AdcT [255, 255, 0, 4, 0, 0] : ℕ) : ℚ) = (25, 128000) := by
    rw [hTn]
    norm_num [compensate_temperature, bmpCalibEx, Prod.ext_iff]
  have hcp : compensate_pressure bmpCalibEx
      ((bmp280AdcP [255, 255, 0, 4, 0, 0] : ℕ) : ℚ)
      (compensate_temperature bmpCalibEx
        ((bmp280AdcT [255, 255, 0, 4, 0, 0] : ℕ) : ℚ)).2 = 1000 := by
    rw [hct, hPn]
    norm_num [compensate_pressure, bmpCalibEx]
  have h := ((read_bmp280_spec bmpCalibEx [255, 255, 0, 4, 0, 0]).2
      (by decide) (by decide)).2
    (by rw [hct]; norm_num) (by rw [hcp]; norm_num)
  have h25 : round2 ((25 : ℚ)) = 25 := by
    have e : ((25 : ℚ)) = ((250 : ℤ) : ℚ) / 10 := by norm_num
    rw [e, round2_div_ten]
  have h1000 : round2 ((1000 : ℚ)) = 1000 := by
    have e : ((1000 : ℚ)) = ((10000 : ℤ) : ℚ) / 10 := by norm_num
    rw [e, round2_div_ten]
  rw [h, hcp, hct]
  simp [h25, h1000]

/-! ### C3 — the chip-ID identity check at initialization

Two pressure-driver variants are in the source:
* `BMP280Sensor._initialize` (`sensors/bmp280_sensor.py`, lines 37–56): reads
  register `0xD0`; on `chip_id != 0x58` it raises, the handler logs and
  re-raises (`raise`), so the error propagates out of the constructor and
  `_load_calibration` is never reached.
* `AHT20_BMP280._init_bmp280` (`sensors/aht20_bmp280.py`, lines 40–71): the
  same check, but the surrounding `except` swallows the error and sets
  `self.bmp280_calib = None`; the constructor returns normally.  A later
  `read_bmp280` starts with `if not self.bmp280_calib: return None, None`.

The bus is modelled as a register file `regs : ℕ → ℕ`; each embedding also
returns the list of base registers read, so "no calibration-register read is
attempted" is a statement about the trace. -/

/-- `_read_word_unsigned`: two-byte little-endian read at `reg`. -/
def read_word_unsigned (regs : ℕ → ℕ) (reg : ℕ) : ℤ :=
  (((regs (reg + 1)) <<< 8 ||| regs reg : ℕ) : ℤ)

/-- `_read_word_signed`: values above 32767 reinterpreted as negative. -/
def read_word_signed (regs : ℕ → ℕ) (reg : ℕ) : ℤ :=
  let value := read_word_unsigned regs reg
  if value > 32767 then value - 65536 else value

/-- `_load_calibration` / the calibration-dict load: the 12 words at
`0x88..0x9E`. -/
def load_calibration (regs : ℕ → ℕ) : BMP280Calib :=
  { digT1 := read_word_unsigned regs 0x88,
    digT2 := read_word_signed regs 0x8A,
    digT3 := read_word_signed regs 0x8C,
    digP1 := read_word_unsigned regs 0x8E,
    digP2 := read_word_signed regs 0x90,
    digP3 := read_word_signed regs 0x92,
    digP4 := read_word_signed regs 0x94,
    digP5 := read_word_signed regs 0x96,
    digP6 := read_word_signed regs 0x98,
    digP7 := read_word_signed regs 0x9A,
    digP8 := read_word_signed regs 0x9C,
    digP9 := read_word_signed regs 0x9E }

/-- The base registers read when the identity check passes: the ID register
followed by the 12 calibration words. -/
def bmp280CalibRegs : List ℕ :=
  [0xD0, 0x88, 0x8A, 0x8C, 0x8E, 0x90, 0x92, 0x94, 0x96, 0x98, 0x9A, 0x9C,
   0x9E]

/-- `BMP280Sensor._initialize`: `.error` models the re-raised exception
escaping the constructor; the second component is the trace of base registers
read. -/
def bmp280SensorInit (regs : ℕ → ℕ) :
    Except String BMP280Calib × List ℕ :=
  let chip_id := regs 0xD0
  if chip_id ≠ 0x58 then (Except.error "Неправильный ID чипа", [0xD0])
  else (Except.ok (load_calibration regs), bmp280CalibRegs)

/-- `AHT20_BMP280._init_bmp280`: the body raises on a bad chip ID, but the
handler catches every exception and sets `bmp280_calib = None`, so the result
is always `.ok`; the trace again lists the base registers read. -/
def aht20_init_bmp280 (regs : ℕ → ℕ) :
    Except String (Option BMP280Calib × List ℕ) :=
  let body : Except String (BMP280Calib × List ℕ) :=
    let chip_id := regs 0xD0
    if chip_id ≠ 0x58 then Except.error "Неверный ID BMP280"
    else Except.ok (load_calibration regs, bmp280CalibRegs)
  match body with
  | Except.error _ => Except.ok (none, [0xD0])
  | Except.ok (c, tr) => Except.ok (some c, tr)

/-- `read_bmp280` including the `if not self.bmp280_calib` guard. -/
def read_bmp280_opt (c : Option BMP280Calib) (data : List Nat) :
    Option ℚ × Option ℚ :=
  match c with
  | none => (none, none)
  | some cal => read_bmp280 cal data

/-- C3 counterexample: with chip ID `0x60 ≠ 0x58`, `AHT20_BMP280`'s
initialization does **not** propagate the error out of the constructor — the
handler swallows it and the constructor completes normally with
`bmp280_calib = None` — refuting the claim that the pressure driver's
initialization failure always terminates the owning worker. -/
theorem aht20_init_bmp280_no_propagation :
    (aht20_init_bmp280 (fun _ => 0x60)).isOk = true ∧
      aht20_init_bmp280 (fun _ => 0x60) = Except.ok (none, [0xD0]) := by
  exact ⟨rfl, rfl⟩

/-- C3 (amended): on a chip-ID mismatch, `BMP280Sensor._initialize` does
propagate the error (only register `0xD0` having been read, so no
calibration-register read is attempted), while `AHT20_BMP280._init_bmp280`
completes normally with `bmp280_calib = None`, likewise without touching the
calibration registers, and every subsequent `read_bmp280` then returns
`(None, None)`, so no calibration-derived data can reach the store. -/
theorem chip_id_mismatch_spec (regs : ℕ → ℕ) (h : regs 0xD0 ≠ 0x58) :
    bmp280SensorInit regs = (Except.error "Неправильный ID чипа", [0xD0]) ∧
    aht20_init_bmp280 regs = Except.ok (none, [0xD0]) ∧
    ∀ data : List Nat, read_bmp280_opt none data = (none, none) := by
  refine ⟨?_, ?_, fun data => rfl⟩
  · rw [bmp280SensorInit, if_pos h]
  · rw [aht20_init_bmp280]
    simp only [if_pos h]

/-- C3 witness: the register file answering `0x60` everywhere has a
mismatching chip ID, and both initializations behave as the amended claim
states. -/
theorem chip_id_mismatch_spec_witness :
    bmp280SensorInit (fun _ => 0x60) =
        (Except.error "Неправильный ID чипа", [0xD0]) ∧
      read_bmp280_opt none [255, 255, 0, 4, 0, 0] = (none, none) := by
  have h := chip_id_mismatch_spec (fun _ => 0x60) (by decide)
  exact ⟨h.1, h.2.2 _⟩

/-! ### C6 — ambient-compensation packing in `sensors/ens160.py`

`ENS160.get_data` (lines 48–61) computes `temp_int = int(temperature * 100)`
and `hum_int = int(humidity * 100)` and packs each as
`[(v >> 8) & 0xFF, v & 0xFF]` — **high byte first** — before writing them to
registers `0x13`/`0x15`, although the adjacent comment (and the spec) say
little-endian.  Python `int()` truncates toward zero; `>>` is an arithmetic
shift (floor division) and `& 0xFF` the nonnegative remainder. -/

/-- Python `int()` truncation toward zero of a rational. -/
def pyTrunc (q : ℚ) : ℤ := if 0 ≤ q then q.floor else q.ceil

/-- `pyTrunc` fixes integers. -/
theorem pyTrunc_intCast (m : ℤ) : pyTrunc (m : ℚ) = m := by
  rw [pyTrunc]
  rcases le_or_lt 0 (m : ℚ) with h | h
  · rw [if_pos h, ratFloor_eq_intFloor]
    exact Int.floor_intCast m
  · rw [if_neg (not_le.mpr h)]
    simp [Rat.ceil]

/-- The two bytes the code writes for a compensation value `v`:
`[(v >> 8) & 0xFF, v & 0xFF]` (high byte first). -/
def ens160PackBytes (v : ℤ) : List ℤ := [(v.fdiv 256) % 256, v % 256]

/-- `temp_bytes` as computed in `ENS160.get_data`. -/
def ens160_temp_bytes (temperature : ℚ) : List ℤ :=
  let temp_int := pyTrunc (temperature * 100)
  ens160PackBytes temp_int

/-- `hum_bytes` as computed in `ENS160.get_data`. -/
def ens160_hum_bytes (humidity : ℚ) : List ℤ :=
  let hum_int := pyTrunc (humidity * 100)
  ens160PackBytes hum_int

/-- A 16-bit little-endian pair — low byte first — as the claim (and the
code's own comment) describe. -/
def leBytes16 (v : ℤ) : List ℤ := [v % 256, (v.fdiv 256) % 256]

/-- C6: at `temperature = 26.0` (the code's own worked example,
`temp_int = 2600 = 0x0A28`) the code writes `[0x0A, 0x28]` — high byte first —
which differs from the little-endian pair `[0x28, 0x0A]` the claim (and the
code's own `little-endian` comment) require; the scaling `int(T*100)` itself
is as claimed. -/
theorem ens160_get_data_pack_bug :
    pyTrunc ((26 : ℚ) * 100) = 2600 ∧
    ens160_temp_bytes 26 = [10, 40] ∧
    leBytes16 2600 = [40, 10] ∧
    ens160_temp_bytes 26 ≠ leBytes16 2600 := by
  have e : ((26 : ℚ) * 100) = ((2600 : ℤ) : ℚ) := by norm_num
  have h : pyTrunc ((26 : ℚ) * 100) = 2600 := by rw [e, pyTrunc_intCast]
  refine ⟨h, ?_, by decide, ?_⟩
  · rw [ens160_temp_bytes]
    rw [h]
    decide
  · rw [ens160_temp_bytes]
    rw [h]
    decide

/-! ### C7 — the CPU-temperature read of `sensors/cpu_temperature.py`

`CPUTemp.get_data` (lines 17–32):
```
try:
    if os.path.exists(self.temp_path):
        with open(...) as f:
            temp_millic = int(f.read().strip())
            return round(temp_millic / 1000.0)
except Exception as e:
    return e
```
Its own docstring says "Температура … или None при ошибке" (temperature or
None on error), but the handler returns **the exception object**, not `None`.
The file is modelled as `Option String` (`none` = path does not exist);
`int(str)` is modelled by an explicit strip + integer parse, a parse failure
standing for the raised `ValueError`. -/

/-- Python's `str.strip()`: drop leading and trailing whitespace. -/
def pyStrip (s : String) : String :=
  String.mk
    (((s.data.dropWhile Char.isWhitespace).reverse.dropWhile
        Char.isWhitespace).reverse)

/-- Parse a nonempty all-digit character list as a natural number. -/
def parseNatDigits (l : List Char) : Option ℕ :=
  if l ≠ [] ∧ l.all Char.isDigit then
    some (l.foldl (fun acc c => 10 * acc + (c.toNat - 48)) 0)
  else none

/-- Python's `int(str)`: optional sign, then decimal digits; anything else
raises `ValueError` (`none` here). -/
def parseIntPy (s : String) : Option ℤ :=
  match (pyStrip s).data with
  | '-' :: rest => (parseNatDigits rest).map (fun n => -(n : ℤ))
  | '+' :: rest => (parseNatDigits rest).map (fun n => (n : ℤ))
  | l => (parseNatDigits l).map (fun n => (n : ℤ))

/-- The three observable results of `CPUTemp.get_data`. -/
inductive CpuReadResult where
  | val : ℤ → CpuReadResult
  | pyNone : CpuReadResult
  | exn : CpuReadResult
deriving DecidableEq, Repr

/-- `CPUTemp.get_data`. -/
def cpu_get_data (file : Option String) : CpuReadResult :=
  match file with
  | none => CpuReadResult.pyNone
  | some content =>
    match parseIntPy content with
    | none => CpuReadResult.exn
    | some temp_millic =>
      CpuReadResult.val (roundHalfEven ((temp_millic : ℚ) / 1000))

/-- C7: a read failure inside the `try` (here: unparsable file content
`"abc"`) makes `get_data` return the exception object — not `None` — so the
claim (and the function's own docstring) are violated; only the
missing-file path yields `None`. -/
theorem cpu_get_data_returns_exception :
    cpu_get_data (some "abc") = CpuReadResult.exn ∧
    CpuReadResult.exn ≠ CpuReadResult.pyNone ∧
    cpu_get_data none = CpuReadResult.pyNone := by
  refine ⟨?_, by decide, rfl⟩
  rfl

/-! ### C8 — `AHT20_BMP280.close` (lines 169–175)

```
def close(self):
    if self.bus:
        try:
            self.bus.close()
        except Exception as e:
            ...log...
```
The `except` swallows any error (so `close` never raises), but `self.bus` is
never cleared, so a second call finds the bus still set and invokes the
underlying `bus.close()` again.  The state records the truthiness of
`self.bus`; each call reports how many underlying `bus.close()` invocations
it performed, and `.ok` models "does not raise". -/

/-- The driver state visible to `close`: whether `self.bus` is set. -/
structure AHTDriverState where
  busOpen : Bool
deriving DecidableEq, Repr

/-- One `close` call: returns the (unchanged) state and the number of
underlying `bus.close()` invocations performed. -/
def aht20_close (st : AHTDriverState) :
    Except String (AHTDriverState × ℕ) :=
  if st.busOpen then Except.ok (st, 1) else Except.ok (st, 0)

/-- Two consecutive `close` calls, accumulating the underlying invocation
count. -/
def aht20_close_twice (st : AHTDriverState) :
    Except String (AHTDriverState × ℕ) :=
  match aht20_close st with
  | Except.error e => Except.error e
  | Except.ok (st1, n1) =>
    match aht20_close st1 with
    | Except.error e => Except.error e
    | Except.ok (st2, n2) => Except.ok (st2, n1 + n2)

/-- C8 counterexample: from an open-bus state, calling `close` twice invokes
the underlying `bus.close()` twice (`2 ≠ 1`) — the second call is not a
no-op, refuting "releases the underlying bus handle exactly once". -/
theorem aht20_close_twice_releases_twice :
    aht20_close_twice ⟨true⟩ = Except.ok (⟨true⟩, 2) ∧ (2 : ℕ) ≠ 1 := by
  exact ⟨rfl, by decide⟩

/-- C8 (amended): `close` never raises (every underlying error is swallowed),
and a double `close` leaves the state unchanged but performs two underlying
`bus.close()` invocations when the bus is set — the driver itself does not
guarantee a single release; it merely relies on the underlying library. -/
theorem aht20_close_no_raise_not_idempotent (st : AHTDriverState) :
    aht20_close st = Except.ok (st, if st.busOpen then 1 else 0) ∧
    aht20_close_twice st =
      Except.ok (st, if st.busOpen then 2 else 0) := by
  cases st with
  | mk b =>
    cases b <;> exact ⟨rfl, rfl⟩

/-! ### C9 — the community delivery pipeline of `senders/sensor_community.py`

`send_data` (lines 90–137) snapshots `shared_dict.get('air', {})` — the
top-level key `'air'` — while every driver writes under
`'Sensor data'[family]` via `update_sensor_data`.  When the `'air'` dict is
missing or its `'status'` is not `'ok'`, the cycle sends nothing; otherwise
it builds two payloads: `push_sds011(pm10, pm25)` (lines 42–60) with entries
`P1`/`P2` formatted `f"{x:.2f}"`, and `push_bme280(temp, pressure)`
(lines 62–88) with `temperature` (`.2f`) and, when `pressure` is truthy,
`pressure` in Pa (`f"{pressure * 100:.0f}"`); `humidity` is omitted (passed
as `None`). -/

/-- Decimal rendering of `n/100` with exactly two decimals (the result of
`f"{x:.2f}"` once the scaled value `n = roundHalfEven (x*100)` is known). -/
def fmt2Render (n : ℤ) : String :=
  let m := n.natAbs
  (if n < 0 then "-" else "") ++ toString (m / 100) ++ "." ++
    (if m % 100 < 10 then "0" else "") ++ toString (m % 100)

/-- Python's `f"{x:.2f}"` over the rational model. -/
def fmt2 (q : ℚ) : String := fmt2Render (roundHalfEven (q * 100))

/-- Integer rendering of `f"{x:.0f}"` once the rounded value is known. -/
def fmt0Render (n : ℤ) : String :=
  (if n < 0 then "-" else "") ++ toString n.natAbs

/-- Python's `f"{x:.0f}"` over the rational model. -/
def fmt0 (q : ℚ) : String := fmt0Render (roundHalfEven q)

/-- One provider payload: `software_version` and the `sensordatavalues`
list of `value_type`/`value` pairs. -/
structure Payload where
  software_version : String
  sensordatavalues : List (String × String)
deriving DecidableEq, Repr

/-- `push_sds011(pm10, pm25)`: the PM payload. -/
def push_sds011_payload (pm10 pm25 : ℚ) : Payload :=
  { software_version := "raspi_multiprocess_1.0",
    sensordatavalues := [("P1", fmt2 pm10), ("P2", fmt2 pm25)] }

/-- `push_bme280(temperature, pressure, humidity=None)`: the climate
payload; pressure appears only when truthy (`≠ 0`), converted to Pa. -/
def push_bme280_payload (temperature pressure : ℚ) (humidity : Option ℚ) :
    Payload :=
  { software_version := "raspi_multiprocess_1.0",
    sensordatavalues :=
      [("temperature", fmt2 temperature)] ++
      (if pressure ≠ 0 then [("pressure", fmt0 (pressure * 100))] else []) ++
      (match humidity with
       | some h => [("humidity", fmt2 h)]
       | none => []) }

/-- The `'air'` sub-dict `send_data` expects, with Python `.get` defaults. -/
structure AirData where
  pm25 : Option ℚ
  pm10 : Option ℚ
  temperature : Option ℚ
  pressure : Option ℚ
  status : Option String

/-- The shared dict as `send_data` sees it: the top-level `'air'` key it
reads, and the `'Sensor data'` namespace the drivers actually write. -/
structure CommunitySharedDict where
  air : Option AirData
  sensorData : PyDict (List (String × Reading))

/-- One delivery cycle of `send_data`: `none` models "Нет валидных данных
air" (nothing sent); otherwise the PM payload and the climate payload, with
each missing field defaulted to `0` by `.get(key, 0)`. -/
def send_data_cycle (d : CommunitySharedDict) : Option (Payload × Payload) :=
  match d.air with
  | none => none
  | some a =>
    if a.status ≠ some "ok" then none
    else
      some (push_sds011_payload (a.pm10.getD 0) (a.pm25.getD 0),
        push_bme280_payload (a.temperature.getD 0) (a.pressure.getD 0) none)

/-- A `Reading` as the SDS011 driver writes it. -/
def mkSdsReading (v : ℚ) (descrStr : String) : Reading :=
  { value := v, unit := "мкг/м³", descr := descrStr, timestamp := 0 }

/-- The claim's scenario store: starting from the empty state, the
particulate driver writes `pm25 = 12.3`, `pm10 = 20.1` under
`'Sensor data'['SDS011']` and the pressure driver writes
`Temperature = 21.5`, `Pressure = 1012.3` under `'Sensor data'['BMP280']`;
no writer ever touches a top-level `'air'` key. -/
def c9ScenarioStore : CommunitySharedDict :=
  { air := none,
    sensorData :=
      (mergeSensorData
        (mergeSensorData (emptyShared (List (String × Reading)) Unit)
          "SDS011"
          [("pm25", mkSdsReading (123 / 10) "PM 2.5"),
           ("pm10", mkSdsReading (201 / 10) "PM 10")])
        "BMP280"
        [("Temperature", { value := 43 / 2, unit := "°C", descr := "T",
                           timestamp := 0 }),
         ("Pressure", { value := 10123 / 10, unit := "гПа", descr := "P",
                        timestamp := 0 })]).sensorData }

/-- C9 counterexample: on the claim's scenario store — both families present
under `'Sensor data'` — the community delivery cycle produces **no payload at
all**, because `send_data` reads the top-level `'air'` key, which no driver
writes; the claimed four-entry payload does not exist. -/
theorem send_data_cycle_scenario_empty :
    send_data_cycle c9ScenarioStore = none ∧
    (c9ScenarioStore.sensorData "SDS011").isSome = true ∧
    (c9ScenarioStore.sensorData "BMP280").isSome = true := by
  refine ⟨rfl, ?_, ?_⟩ <;>
    simp [c9ScenarioStore, mergeSensorData, update_sensor_data, dictUpdate,
      dictInsert, emptyShared]

/-- The store whose `'air'` dict holds the scenario's values with
`status = 'ok'` — the shape `send_data`'s own module docstring documents. -/
def c9AirStore : CommunitySharedDict :=
  { air := some { pm25 := some (123 / 10), pm10 := some (201 / 10),
                  temperature := some (43 / 2), pressure := some (10123 / 10),
                  status := some "ok" },
    sensorData := fun _ => none }

/-- C9 (amended): the delivery cycle sends only when the top-level `'air'`
dict is present with `status = 'ok'`; on the scenario's values it then
produces two payloads — PM and climate — whose `sensordatavalues` together
are exactly the four entries `P1 ↦ "20.10"`, `P2 ↦ "12.30"`,
`temperature ↦ "21.50"`, `pressure ↦ "101230"` (pressure in Pa as hPa × 100,
no decimals; the others with 2 decimals). -/
theorem send_data_cycle_air_spec :
    send_data_cycle c9AirStore =
      some ({ software_version := "raspi_multiprocess_1.0",
              sensordatavalues := [("P1", "20.10"), ("P2", "12.30")] },
            { software_version := "raspi_multiprocess_1.0",
              sensordatavalues :=
                [("temperature", "21.50"), ("pressure", "101230")] }) := by
  have f2010 : fmt2 (201 / 10) = "20.10" := by
    have e : ((201 : ℚ) / 10) * 100 = ((2010 : ℤ) : ℚ) := by norm_num
    rw [fmt2, e, roundHalfEven_intCast]
    decide
  have f1230 : fmt2 (123 / 10) = "12.30" := by
    have e : ((123 : ℚ) / 10) * 100 = ((1230 : ℤ) : ℚ) := by norm_num
    rw [fmt2, e, roundHalfEven_intCast]
    decide
  have f2150 : fmt2 (43 / 2) = "21.50" := by
    have e : ((43 : ℚ) / 2) * 100 = ((2150 : ℤ) : ℚ) := by norm_num
    rw [fmt2, e, roundHalfEven_intCast]
    decide
  have f101230 : fmt0 ((10123 : ℚ) / 10 * 100) = "101230" := by
    have e : ((10123 : ℚ) / 10) * 100 = ((101230 : ℤ) : ℚ) := by norm_num
    rw [fmt0, e, roundHalfEven_intCast]
    decide
  rw [send_data_cycle]
  simp only [c9AirStore]
  rw [if_neg (by simp)]
  rw [push_sds011_payload, push_bme280_payload]
  simp only [Option.getD_some]
  rw [if_pos (by norm_num)]
  rw [f2010, f1230, f2150, f101230]
  simp
